import Mathlib

set_option autoImplicit false

/-!
Shallow embedding of the two Excel-inspection scripts of the YSLv6Hub
repository: `analyze_excel.py` (the rich variant, namespace `AnalyzeExcel`)
and `analyze_excel_simple.py` (the simple variant, namespace
`AnalyzeExcelSimple`).  Python dictionaries appearing in the output are
embedded as Lean structures whose fields are the dictionary keys (an
`Option` field models a key that may be absent or mapped to Python `None`);
stateful loops become structural recursion; functions that can raise
return `Except String`.
-/

/-- A Python value as it can occur in a worksheet cell in this development:
`None`, a string, an integer or a boolean.  (Other openpyxl value types such
as floats or datetimes behave identically for the claims at stake: only
truthiness and `str` rendering of cell values are ever used.) -/
inductive PyVal where
  | none
  | str (s : String)
  | int (n : Int)
  | bool (b : Bool)
deriving DecidableEq

/-- Python truthiness of a `PyVal`: `None`, `""`, `0` and `False` are falsy. -/
def pyTruthy : PyVal → Bool
  | PyVal.none => false
  | PyVal.str s => s != ""
  | PyVal.int n => n != 0
  | PyVal.bool b => b

/-- Python `str(...)` rendering of a `PyVal`. -/
def pyStr : PyVal → String
  | PyVal.none => "None"
  | PyVal.str s => s
  | PyVal.int n => toString n
  | PyVal.bool b => if b then "True" else "False"

/-- Truthiness of an optional Python bool (`None` and `False` are falsy). -/
def optBoolTruthy : Option Bool → Bool
  | some b => b
  | Option.none => false

/-- Truthiness of an optional Python string (`None` and `""` are falsy). -/
def optStrTruthy : Option String → Bool
  | some s => s != ""
  | Option.none => false

/-- Truthiness of an optional Python number (`None` and `0` are falsy).
Font sizes are embedded as rationals (exact for the float values involved). -/
def optRatTruthy : Option ℚ → Bool
  | some q => q != 0
  | Option.none => false

/-- Helper for `get_column_letter`: the first argument is fuel, always
initialised to the column index itself, which bounds the number of
iterations of openpyxl's `while col_idx > 0` loop. -/
def getColumnLetterAux : Nat → Nat → List Char
  | 0, _ => []
  | _ + 1, 0 => []
  | fuel + 1, n + 1 =>
    let idx := n + 1
    let q := idx / 26
    let r := idx % 26
    if r = 0 then getColumnLetterAux fuel (q - 1) ++ [Char.ofNat 90]
    else getColumnLetterAux fuel q ++ [Char.ofNat (r + 64)]

/-- openpyxl's `get_column_letter`: 1 ↦ "A", 26 ↦ "Z", 27 ↦ "AA", … -/
def get_column_letter (n : Nat) : String :=
  String.mk (getColumnLetterAux n n)

/-- An ASCII upper-case letter, the letters admitted by openpyxl's
coordinate regular expression after upcasing. -/
def isUpperAlpha (c : Char) : Bool := 65 ≤ c.toNat && c.toNat ≤ 90

/-- Decimal digits to a natural number, as Python's `int(...)` on a
digit string. -/
def digitsToNat (l : List Char) : Nat :=
  l.foldl (fun a c => a * 10 + (c.toNat - 48)) 0

/-- Drop one leading dollar sign, as the optional `[$]?` groups of
openpyxl's coordinate regular expression. -/
def stripDollar : List Char → List Char
  | '$' :: t => t
  | t => t

/-- openpyxl's `coordinate_from_string`: upcase, match
`[$]?([A-Za-z]\x7b1,3\x7d)[$]?(\d+)` anchored at both ends, reject row 0;
`Option.none` models the raised `CellCoordinatesException`. -/
def coordinate_from_string (s : String) : Option (String × Nat) :=
  let cs := stripDollar (s.toList.map Char.toUpper)
  let letters := cs.takeWhile isUpperAlpha
  let rest := stripDollar (cs.dropWhile isUpperAlpha)
  let digits := rest.takeWhile Char.isDigit
  let trailing := rest.dropWhile Char.isDigit
  if 1 ≤ letters.length && letters.length ≤ 3 && 1 ≤ digits.length && trailing.isEmpty then
    let row := digitsToNat digits
    if row = 0 then Option.none else some (String.mk letters, row)
  else Option.none

/-- openpyxl's `column_index_from_string` on an upper-case letter string:
base-26 with A = 1. -/
def column_index_from_string (s : String) : Nat :=
  s.toList.foldl (fun a c => a * 26 + (c.toNat - 64)) 0

/-- Python `range(a, b)` as the list `[a, a+1, …, b-1]` (empty when `b ≤ a`). -/
def pyRange (a b : Nat) : List Nat := List.range' a (b - a)

/-- The frozen-panes block shared verbatim by both scripts:
`if sheet.freeze_panes:` (so `None` and the empty string are skipped),
then `coordinate_from_string` / `column_index_from_string`, storing
`col_idx - 1` and `row - 1`.  The result pair is (frozen_cols, frozen_rows);
a parse failure raises, modelled as `Except.error`.  (The simple variant's
extra inner `if cell:` re-test of the same string is redundant.) -/
def frozenPanes : Option String → Except String (Option Nat × Option Nat)
  | Option.none => Except.ok (Option.none, Option.none)
  | some c =>
    if c = "" then Except.ok (Option.none, Option.none)
    else
      match coordinate_from_string c with
      | Option.none => Except.error "CellCoordinatesException"
      | some (col, row) =>
        Except.ok (some (column_index_from_string col - 1), some (row - 1))

/-- Python dict assignment `d[k] = v` on an insertion-ordered dictionary
embedded as an association list: an existing key keeps its position and
gets the new value, a new key is appended at the end. -/
def dictInsert {α : Type} (k : String) (v : α) : List (String × α) → List (String × α)
  | [] => [(k, v)]
  | (k', v') :: rest =>
    if k' == k then (k', v) :: rest else (k', v') :: dictInsert k v rest

namespace AnalyzeExcel

/-- The `.fgColor` attribute of a fill: its `.type` attribute (a string or
`None`) and its `.rgb` attribute. -/
structure FgColor where
  ctype : Option String
  rgb : Option String
deriving DecidableEq

/-- `cell.fill`: `patternType` is `None` on an unformatted cell (openpyxl's
default `PatternFill`), or a pattern-name string such as "solid" or "none";
`fgColor = Option.none` models `hasattr(cell.fill, "fgColor")` being false. -/
structure Fill where
  patternType : Option String
  fgColor : Option FgColor
deriving DecidableEq

/-- `cell.font.color`, when present: only its `.rgb` attribute is read. -/
structure FontColor where
  rgb : Option String
deriving DecidableEq

/-- `cell.font`: openpyxl's default cell font has `bold = None`,
`italic = None` and `size = 11.0`. -/
structure Font where
  bold : Option Bool
  italic : Option Bool
  size : Option ℚ
  color : Option FontColor
deriving DecidableEq

/-- A worksheet cell as read by `analyze_excel.py`: its value, fill and font. -/
structure Cell where
  value : PyVal
  fill : Fill
  font : Option Font

/-- The attributes `analyze_excel.py` reads from an element of
`sheet.data_validations.dataValidation` once unpacked: `.type`, and
`.formula1` / `.formula2` (where `Option.none` covers both a missing
attribute, the `hasattr` test failing, and an attribute holding `None`:
all three put `None` in the output). -/
structure DVRecord where
  dvtype : Option String
  formula1 : Option String
  formula2 : Option String
deriving DecidableEq

/-- One element of `sheet.data_validations.dataValidation` as iterated by
`for range_addr, dv in …`: either something that unpacks into a
(range string, record) pair, or anything else — unpacking then raises
`TypeError` (in particular a genuine openpyxl `DataValidation` object is
not a pair, hence `malformed` for this loop). -/
inductive DVItem where
  | pair (range_addr : String) (dv : DVRecord)
  | malformed

/-- A worksheet as read by `analyze_excel.py`.  `data_validations =
Option.none` models the `.dataValidation` attribute access raising
(absent metadata); `merged_ranges` holds the `str(merged_range)` strings;
`conditional_formatting` is `bool(sheet.conditional_formatting)`;
`cell r c` is `sheet.cell(row=r, column=c)` (1-based). -/
structure Sheet where
  title : String
  dimensions : String
  freeze_panes : Option String
  merged_ranges : List String
  data_validations : Option (List DVItem)
  conditional_formatting : Bool
  max_row : Nat
  max_column : Nat
  cell : Nat → Nat → Cell

/-- One entry of the `columns` list built by `analyze_sheet`.  The
`header` is the raw cell value when truthy, else the synthesised fallback
string (so its type is a Python union, embedded as `PyVal`). -/
structure ColumnInfo where
  index : Nat
  letter : String
  header : PyVal
deriving DecidableEq

/-- One entry of the `data_validation` list built by `analyze_sheet`. -/
structure ValidationRule where
  range : String
  dvtype : Option String
  formula1 : Option String
  formula2 : Option String
deriving DecidableEq

/-- The `font` sub-dictionary of a cell-format descriptor. -/
structure FontFormat where
  bold : Option Bool
  italic : Option Bool
  size : Option ℚ
  color : Option String
deriving DecidableEq

/-- The `cell_format` dictionary: each field models one key, `Option.none`
meaning the key is absent.  The `fill` key, when present, can be mapped to
Python `None` (when `cell.fill.patternType` is `None`), hence its nested
`Option`. -/
structure CellFormat where
  fill : Option (Option String)
  fill_color : Option String
  font : Option FontFormat
deriving DecidableEq

/-- One cell of the data sample: rendered value and optional format. -/
structure CellOut where
  value : Option String
  format : Option CellFormat
deriving DecidableEq

/-- The dictionary returned by `analyze_sheet`, plus the `data_sample` key
that `analyze_excel` adds to it afterwards (empty until then). -/
structure SheetInfo where
  name : String
  dimensions : String
  frozen_rows : Option Nat
  frozen_cols : Option Nat
  columns : List ColumnInfo
  merged_cells : List String
  data_validation : List ValidationRule
  conditional_formatting : Bool
  row_count : Nat
  col_count : Nat
  data_sample : List (List CellOut)
deriving DecidableEq

/-- The formatting block of `analyze_excel.py`'s sample loop: build the
`cell_format` dict, then emit it only if it is non-empty (Python dict
truthiness).  Note the code compares `patternType != 'none'` — the string
"none" — so a default fill whose `patternType` is `None` still enters the
branch and stores `None` under the `fill` key. -/
def mkCellFormat (c : Cell) : Option CellFormat :=
  let fillEntry : Option (Option String) :=
    if c.fill.patternType != some "none" then some c.fill.patternType
    else Option.none
  let fillColorEntry : Option String :=
    match fillEntry, c.fill.fgColor with
    | some _, some fg =>
      if optStrTruthy fg.ctype then
        some (match fg.rgb with
              | some r => if r = "" then "default" else r
              | Option.none => "default")
      else Option.none
    | _, _ => Option.none
  let fontEntry : Option FontFormat :=
    match c.font with
    | some f =>
      if optBoolTruthy f.bold || optBoolTruthy f.italic || optRatTruthy f.size then
        some { bold := f.bold, italic := f.italic, size := f.size,
               color := match f.color with
                        | some col => col.rgb
                        | Option.none => Option.none }
      else Option.none
    | Option.none => Option.none
  if fillEntry.isNone && fillColorEntry.isNone && fontEntry.isNone then
    Option.none
  else
    some { fill := fillEntry, fill_color := fillColorEntry, font := fontEntry }

/-- One sampled cell: `str(cell_value)` unless the value `is None`, and the
optional format descriptor. -/
def mkCellOut (c : Cell) : CellOut :=
  { value := match c.value with
             | PyVal.none => Option.none
             | v => some (pyStr v)
    format := mkCellFormat c }

/-- The column loop of `analyze_sheet`: for each column index, the letter,
and the row-1 cell's value as header if truthy, else "Column " and the
letter. -/
def mkColumns (s : Sheet) : List ColumnInfo :=
  (pyRange 1 (s.max_column + 1)).map fun col_idx =>
    let col_letter := get_column_letter col_idx
    let hv := (s.cell 1 col_idx).value
    { index := col_idx, letter := col_letter,
      header := if pyTruthy hv then hv else PyVal.str ("Column " ++ col_letter) }

/-- The data-validation loop of `analyze_excel.py`: each item is unpacked
as a pair; a non-pair item raises `TypeError`, which `analyze_sheet` does
not catch. -/
def dvRules : List DVItem → Except String (List ValidationRule)
  | [] => Except.ok []
  | DVItem.malformed :: _ => Except.error "TypeError"
  | DVItem.pair r dv :: rest =>
    match dvRules rest with
    | Except.error e => Except.error e
    | Except.ok l =>
      Except.ok ({ range := r, dvtype := dv.dvtype, formula1 := dv.formula1,
                   formula2 := dv.formula2 } :: l)

/-- Accessing `sheet.data_validations.dataValidation` when the metadata is
absent raises `AttributeError`; otherwise run the loop. -/
def dataValidationList : Option (List DVItem) → Except String (List ValidationRule)
  | Option.none => Except.error "AttributeError"
  | some l => dvRules l

/-- `analyze_sheet` of `analyze_excel.py`: no try/except anywhere, so a
failure in the frozen-panes parse or the data-validation loop propagates. -/
def analyze_sheet (s : Sheet) : Except String SheetInfo :=
  match frozenPanes s.freeze_panes with
  | Except.error e => Except.error e
  | Except.ok fr =>
    match dataValidationList s.data_validations with
    | Except.error e => Except.error e
    | Except.ok dv =>
      Except.ok { name := s.title, dimensions := s.dimensions,
                  frozen_rows := fr.2, frozen_cols := fr.1,
                  columns := mkColumns s, merged_cells := s.merged_ranges,
                  data_validation := dv,
                  conditional_formatting := s.conditional_formatting,
                  row_count := s.max_row, col_count := s.max_column,
                  data_sample := [] }

/-- The sample loop of `analyze_excel`: rows `range(1, min(11, max_row+1))`
by columns `range(1, max_column+1)`. -/
def dataSample (s : Sheet) : List (List CellOut) :=
  (pyRange 1 (min 11 (s.max_row + 1))).map fun row_idx =>
    (pyRange 1 (s.max_column + 1)).map fun col_idx =>
      mkCellOut (s.cell row_idx col_idx)

/-- `analyze_sheet` followed by `analyze_excel`'s in-place assignment of
the `data_sample` key. -/
def analyzeSheetWithSample (s : Sheet) : Except String SheetInfo :=
  match analyze_sheet s with
  | Except.error e => Except.error e
  | Except.ok i => Except.ok { i with data_sample := dataSample s }

/-- The top-level dictionary printed by `analyze_excel.py`. -/
structure Report where
  filename : String
  sheet_names : List String
  sheets : List (String × SheetInfo)
deriving DecidableEq

/-- A loaded workbook: its sheets with their names, in workbook order
(`workbook.sheetnames` is the list of first components). -/
abbrev Workbook := List (String × Sheet)

/-- `workbook[sheet_name]`: first sheet with that name. -/
def wbLookup (wb : Workbook) (n : String) : Option Sheet :=
  match wb.find? (fun p => p.1 == n) with
  | some p => some p.2
  | Option.none => Option.none

/-- The per-sheet loop of `analyze_excel`, threading the `sheets`
dictionary through Python dict assignment. -/
def analyzeSheetsGo (wb : Workbook) :
    List String → List (String × SheetInfo) →
    Except String (List (String × SheetInfo))
  | [], acc => Except.ok acc
  | n :: rest, acc =>
    match wbLookup wb n with
    | Option.none => Except.error "KeyError"
    | some s =>
      match analyzeSheetWithSample s with
      | Except.error e => Except.error e
      | Except.ok i => analyzeSheetsGo wb rest (dictInsert n i acc)

/-- `analyze_excel(filepath)`: `openpyxl.load_workbook` is the `load`
parameter (its exceptions are `Except.error`), then the per-sheet loop. -/
def analyze_excel (load : String → Except String Workbook) (filepath : String) :
    Except String Report :=
  match load filepath with
  | Except.error e => Except.error e
  | Except.ok wb =>
    match analyzeSheetsGo wb (wb.map Prod.fst) [] with
    | Except.error e => Except.error e
    | Except.ok d =>
      Except.ok { filename := filepath, sheet_names := wb.map Prod.fst, sheets := d }

end AnalyzeExcel

/-- The observable behaviour of a script's `__main__` block: whether the
usage line was printed to standard output, the report printed to standard
output (serialised as JSON in the script), the message printed to standard
error, and the exit status. -/
structure MainOut (ρ : Type) where
  usage_printed : Bool
  report_printed : Option ρ
  error_printed : Option String
  exit_code : Nat
deriving DecidableEq

namespace AnalyzeExcel

/-- The `__main__` block of `analyze_excel.py`: wrong argument count
prints usage and exits 1; otherwise the inspection runs inside `try`,
printing the JSON report on success (exit 0) and the error line on any
exception (exit 1). -/
def main (load : String → Except String Workbook) (argv : List String) :
    MainOut Report :=
  match argv with
  | [_, filepath] =>
    match analyze_excel load filepath with
    | Except.ok r =>
      { usage_printed := false, report_printed := some r,
        error_printed := Option.none, exit_code := 0 }
    | Except.error e =>
      { usage_printed := false, report_printed := Option.none,
        error_printed := some ("Error analyzing Excel file: " ++ e),
        exit_code := 1 }
  | _ =>
    { usage_printed := true, report_printed := Option.none,
      error_printed := Option.none, exit_code := 1 }

end AnalyzeExcel

namespace AnalyzeExcelSimple

/-- One element of `sheet.data_validations.dataValidation` as used by
`analyze_excel_simple.py`: either an object with an iterable `.sqref`
(each member already rendered by `str`) and a `.type`, or an item on which
those accesses raise `AttributeError`/`TypeError`. -/
inductive DVItem where
  | good (sqref : List String) (dvtype : Option String)
  | malformed

/-- A worksheet as read by `analyze_excel_simple.py`: same structural
fields as the rich variant, but only cell values are read, so `cell r c`
is the value of `sheet.cell(row=r, column=c)`. -/
structure Sheet where
  title : String
  dimensions : String
  freeze_panes : Option String
  merged_ranges : List String
  data_validations : Option (List DVItem)
  conditional_formatting : Bool
  max_row : Nat
  max_column : Nat
  cell : Nat → Nat → PyVal

/-- One entry of the `columns` list: here the header is always a string,
`str(header_cell.value)` when truthy, else the fallback. -/
structure ColumnInfo where
  index : Nat
  letter : String
  header : String
deriving DecidableEq

/-- One entry of the `data_validation` list: range string and type only. -/
structure ValidationRule where
  range : String
  dvtype : Option String
deriving DecidableEq

/-- The dictionary returned by this variant's `analyze_sheet`; each sampled
row is a dictionary from column letter to rendered value, embedded as an
association list (the column letters of one row are pairwise distinct, so
the dictionary is exactly this list in insertion order). -/
structure SheetInfo where
  name : String
  dimensions : String
  frozen_rows : Option Nat
  frozen_cols : Option Nat
  columns : List ColumnInfo
  merged_cells : List String
  data_validation : List ValidationRule
  conditional_formatting : Bool
  row_count : Nat
  col_count : Nat
  data_sample : List (List (String × Option String))
deriving DecidableEq

/-- The body of the `try` around the validation loop: items are processed
in order; a malformed item raises, aborting both nested loops, and the
`except (AttributeError, TypeError): pass` keeps whatever was appended so
far. -/
def dvRulesAux : List DVItem → List ValidationRule
  | [] => []
  | DVItem.malformed :: _ => []
  | DVItem.good sqrefs t :: rest =>
    (sqrefs.map fun r => { range := r, dvtype := t }) ++ dvRulesAux rest

/-- The whole guarded validation block: absent metadata raises
`AttributeError` at `.dataValidation`, caught by the same handler, leaving
the list empty. -/
def dvRules : Option (List DVItem) → List ValidationRule
  | Option.none => []
  | some l => dvRulesAux l

/-- The column loop: identical to the rich variant except the truthy
header is rendered with `str`. -/
def mkColumns (s : Sheet) : List ColumnInfo :=
  (pyRange 1 (s.max_column + 1)).map fun col_idx =>
    let col_letter := get_column_letter col_idx
    let hv := s.cell 1 col_idx
    { index := col_idx, letter := col_letter,
      header := if pyTruthy hv then pyStr hv else "Column " ++ col_letter }

/-- The sample loop of `analyze_excel_simple.py`: rows
`range(1, min(20, max_row+1))` by columns `range(1, max_column+1)`, each
row a dict from column letter to `str(cell.value)` or `None`. -/
def dataSample (s : Sheet) : List (List (String × Option String)) :=
  (pyRange 1 (min 20 (s.max_row + 1))).map fun row_idx =>
    (pyRange 1 (s.max_column + 1)).map fun col_idx =>
      (get_column_letter col_idx,
       match s.cell row_idx col_idx with
       | PyVal.none => Option.none
       | v => some (pyStr v))

/-- `analyze_sheet` of `analyze_excel_simple.py`: only the validation block
is guarded by try/except; a frozen-panes parse failure still propagates.
The data sample is built inside this function here. -/
def analyze_sheet (s : Sheet) : Except String SheetInfo :=
  match frozenPanes s.freeze_panes with
  | Except.error e => Except.error e
  | Except.ok fr =>
    Except.ok { name := s.title, dimensions := s.dimensions,
                frozen_rows := fr.2, frozen_cols := fr.1,
                columns := mkColumns s, merged_cells := s.merged_ranges,
                data_validation := dvRules s.data_validations,
                conditional_formatting := s.conditional_formatting,
                row_count := s.max_row, col_count := s.max_column,
                data_sample := dataSample s }

/-- The top-level dictionary printed by `analyze_excel_simple.py`. -/
structure Report where
  filename : String
  sheet_names : List String
  sheets : List (String × SheetInfo)
deriving DecidableEq

/-- A loaded workbook for the simple variant. -/
abbrev Workbook := List (String × Sheet)

/-- `workbook[sheet_name]`: first sheet with that name. -/
def wbLookup (wb : Workbook) (n : String) : Option Sheet :=
  match wb.find? (fun p => p.1 == n) with
  | some p => some p.2
  | Option.none => Option.none

/-- The per-sheet loop of this variant's `analyze_excel`. -/
def analyzeSheetsGo (wb : Workbook) :
    List String → List (String × SheetInfo) →
    Except String (List (String × SheetInfo))
  | [], acc => Except.ok acc
  | n :: rest, acc =>
    match wbLookup wb n with
    | Option.none => Except.error "KeyError"
    | some s =>
      match analyze_sheet s with
      | Except.error e => Except.error e
      | Except.ok i => analyzeSheetsGo wb rest (dictInsert n i acc)

/-- `analyze_excel(filepath)` of the simple variant. -/
def analyze_excel (load : String → Except String Workbook) (filepath : String) :
    Except String Report :=
  match load filepath with
  | Except.error e => Except.error e
  | Except.ok wb =>
    match analyzeSheetsGo wb (wb.map Prod.fst) [] with
    | Except.error e => Except.error e
    | Except.ok d =>
      Except.ok { filename := filepath, sheet_names := wb.map Prod.fst, sheets := d }

/-- The `__main__` block of `analyze_excel_simple.py`, identical in shape
to the rich variant's. -/
def main (load : String → Except String Workbook) (argv : List String) :
    MainOut Report :=
  match argv with
  | [_, filepath] =>
    match analyze_excel load filepath with
    | Except.ok r =>
      { usage_printed := false, report_printed := some r,
        error_printed := Option.none, exit_code := 0 }
    | Except.error e =>
      { usage_printed := false, report_printed := Option.none,
        error_printed := some ("Error analyzing Excel file: " ++ e),
        exit_code := 1 }
  | _ =>
    { usage_printed := true, report_printed := Option.none,
      error_printed := Option.none, exit_code := 1 }

end AnalyzeExcelSimple

/-! ### Helper lemmas -/

theorem pyRange_length (a b : Nat) : (pyRange a b).length = b - a := by
  simp [pyRange]

theorem pyRange_getElem (a b i : Nat) (h : i < (pyRange a b).length) :
    (pyRange a b)[i] = a + i := by
  simp only [pyRange] at h ⊢
  exact List.getElem_range'_1 i h

/-- Inversion for the rich variant: a successful `analyze_sheet` followed
by the `data_sample` assignment determines every field of the result. -/
theorem AnalyzeExcel.analyzeOkR {s : AnalyzeExcel.Sheet} {i : AnalyzeExcel.SheetInfo}
    (h : AnalyzeExcel.analyzeSheetWithSample s = Except.ok i) :
    ∃ fr dv,
      frozenPanes s.freeze_panes = Except.ok fr ∧
      AnalyzeExcel.dataValidationList s.data_validations = Except.ok dv ∧
      i = { name := s.title, dimensions := s.dimensions,
            frozen_rows := fr.2, frozen_cols := fr.1,
            columns := AnalyzeExcel.mkColumns s,
            merged_cells := s.merged_ranges,
            data_validation := dv,
            conditional_formatting := s.conditional_formatting,
            row_count := s.max_row, col_count := s.max_column,
            data_sample := AnalyzeExcel.dataSample s } := by
  cases hfr : frozenPanes s.freeze_panes with
  | error e =>
    simp only [AnalyzeExcel.analyzeSheetWithSample, AnalyzeExcel.analyze_sheet, hfr] at h
    exact Except.noConfusion h
  | ok fr =>
    cases hdv : AnalyzeExcel.dataValidationList s.data_validations with
    | error e =>
      simp only [AnalyzeExcel.analyzeSheetWithSample, AnalyzeExcel.analyze_sheet,
        hfr, hdv] at h
      exact Except.noConfusion h
    | ok dv =>
      simp only [AnalyzeExcel.analyzeSheetWithSample, AnalyzeExcel.analyze_sheet,
        hfr, hdv, Except.ok.injEq] at h
      exact ⟨fr, dv, rfl, rfl, h.symm⟩

/-- Inversion for the simple variant: a successful `analyze_sheet`
determines every field of the result. -/
theorem AnalyzeExcelSimple.analyzeOkS {s : AnalyzeExcelSimple.Sheet}
    {i : AnalyzeExcelSimple.SheetInfo}
    (h : AnalyzeExcelSimple.analyze_sheet s = Except.ok i) :
    ∃ fr,
      frozenPanes s.freeze_panes = Except.ok fr ∧
      i = { name := s.title, dimensions := s.dimensions,
            frozen_rows := fr.2, frozen_cols := fr.1,
            columns := AnalyzeExcelSimple.mkColumns s,
            merged_cells := s.merged_ranges,
            data_validation := AnalyzeExcelSimple.dvRules s.data_validations,
            conditional_formatting := s.conditional_formatting,
            row_count := s.max_row, col_count := s.max_column,
            data_sample := AnalyzeExcelSimple.dataSample s } := by
  cases hfr : frozenPanes s.freeze_panes with
  | error e =>
    simp only [AnalyzeExcelSimple.analyze_sheet, hfr] at h
    exact Except.noConfusion h
  | ok fr =>
    simp only [AnalyzeExcelSimple.analyze_sheet, hfr, Except.ok.injEq] at h
    exact ⟨fr, rfl, h.symm⟩

/-- The rich sample always has `min 10 max_row` rows: `range(1, min(11, r+1))`
enumerates `min 10 r` indices. -/
theorem rich_sample_length (s : AnalyzeExcel.Sheet) :
    (AnalyzeExcel.dataSample s).length = min 10 s.max_row := by
  simp only [AnalyzeExcel.dataSample, List.length_map, pyRange_length]
  omega

/-- The simple sample always has `min 19 max_row` rows: `range(1, min(20, r+1))`
enumerates `min 19 r` indices, one fewer than the intended 20. -/
theorem simple_sample_length (s : AnalyzeExcelSimple.Sheet) :
    (AnalyzeExcelSimple.dataSample s).length = min 19 s.max_row := by
  simp only [AnalyzeExcelSimple.dataSample, List.length_map, pyRange_length]
  omega

/-! ### Concrete fixtures for witnesses and counterexamples -/

/-- A 1×1 rich-variant sheet with freeze panes at "B2", value 5 in its
only cell, an explicit "none" fill and no font. -/
def wSheetR : AnalyzeExcel.Sheet :=
  { title := "W", dimensions := "A1:A1", freeze_panes := some "B2",
    merged_ranges := [], data_validations := some [],
    conditional_formatting := false, max_row := 1, max_column := 1,
    cell := fun _ _ =>
      { value := PyVal.int 5,
        fill := { patternType := some "none", fgColor := Option.none },
        font := Option.none } }

/-- The report entry the rich variant produces for `wSheetR`. -/
def wInfoR : AnalyzeExcel.SheetInfo :=
  { name := "W", dimensions := "A1:A1",
    frozen_rows := some 1, frozen_cols := some 1,
    columns := [{ index := 1, letter := "A", header := PyVal.int 5 }],
    merged_cells := [], data_validation := [],
    conditional_formatting := false, row_count := 1, col_count := 1,
    data_sample := [[{ value := some "5", format := Option.none }]] }

/-- A 1×1 simple-variant sheet with freeze panes at "B2" and value 5 in
its only cell. -/
def wSheetS : AnalyzeExcelSimple.Sheet :=
  { title := "W", dimensions := "A1:A1", freeze_panes := some "B2",
    merged_ranges := [], data_validations := some [],
    conditional_formatting := false, max_row := 1, max_column := 1,
    cell := fun _ _ => PyVal.int 5 }

/-- The report entry the simple variant produces for `wSheetS`. -/
def wInfoS : AnalyzeExcelSimple.SheetInfo :=
  { name := "W", dimensions := "A1:A1",
    frozen_rows := some 1, frozen_cols := some 1,
    columns := [{ index := 1, letter := "A", header := "5" }],
    merged_cells := [], data_validation := [],
    conditional_formatting := false, row_count := 1, col_count := 1,
    data_sample := [[("A", some "5")]] }

/-- A 20-row, 1-column simple-variant sheet of empty cells. -/
def sheet20S : AnalyzeExcelSimple.Sheet :=
  { title := "S", dimensions := "A1:A20", freeze_panes := Option.none,
    merged_ranges := [], data_validations := some [],
    conditional_formatting := false, max_row := 20, max_column := 1,
    cell := fun _ _ => PyVal.none }

/-! ### C3 -/

/-- **C3, counterexample.**  The claim says the simple variant's sample
holds exactly `min 20 row_count` rows; on a 20-row sheet the code's
`range(1, min(20, max_row + 1))` enumerates only 19 rows, not
`min 20 20 = 20`. -/
theorem C3_counterexample :
    Except.map (fun i => i.data_sample.length)
        (AnalyzeExcelSimple.analyze_sheet sheet20S) = Except.ok 19
    ∧ (19 : Nat) ≠ min 20 20 := by
  exact ⟨rfl, by decide⟩

/-- **C3 (amended).**  The rich variant's data sample contains exactly
`min 10 row_count` rows, and the simple variant's exactly
`min 19 row_count` rows (the code's `range(1, min(20, …))` is off by one
from the claimed 20). -/
theorem C3_sample_sizes (sR : AnalyzeExcel.Sheet) (iR : AnalyzeExcel.SheetInfo)
    (hR : AnalyzeExcel.analyzeSheetWithSample sR = Except.ok iR)
    (sS : AnalyzeExcelSimple.Sheet) (iS : AnalyzeExcelSimple.SheetInfo)
    (hS : AnalyzeExcelSimple.analyze_sheet sS = Except.ok iS) :
    iR.data_sample.length = min 10 iR.row_count
    ∧ iS.data_sample.length = min 19 iS.row_count := by
  obtain ⟨fr, dv, -, -, rfl⟩ := AnalyzeExcel.analyzeOkR hR
  obtain ⟨fr2, -, rfl⟩ := AnalyzeExcelSimple.analyzeOkS hS
  exact ⟨rich_sample_length sR, simple_sample_length sS⟩

/-- Witness for `C3_sample_sizes` at the concrete sheets `wSheetR`, `wSheetS`. -/
theorem C3_sample_sizes_witness :
    wInfoR.data_sample.length = min 10 wInfoR.row_count
    ∧ wInfoS.data_sample.length = min 19 wInfoS.row_count :=
  C3_sample_sizes wSheetR wInfoR (by rfl) wSheetS wInfoS (by rfl)

/-! ### C4 -/

/-- **C4.**  In every report of either variant, the data sample has at most
`min sample_cap row_count` rows (cap 10 rich, 20 simple) and no sampled row
has more cells than `col_count`. -/
theorem C4_sample_bounds (sR : AnalyzeExcel.Sheet) (iR : AnalyzeExcel.SheetInfo)
    (hR : AnalyzeExcel.analyzeSheetWithSample sR = Except.ok iR)
    (sS : AnalyzeExcelSimple.Sheet) (iS : AnalyzeExcelSimple.SheetInfo)
    (hS : AnalyzeExcelSimple.analyze_sheet sS = Except.ok iS) :
    (iR.data_sample.length ≤ min 10 iR.row_count
      ∧ ∀ row ∈ iR.data_sample, row.length ≤ iR.col_count)
    ∧ (iS.data_sample.length ≤ min 20 iS.row_count
      ∧ ∀ row ∈ iS.data_sample, row.length ≤ iS.col_count) := by
  obtain ⟨fr, dv, -, -, rfl⟩ := AnalyzeExcel.analyzeOkR hR
  obtain ⟨fr2, -, rfl⟩ := AnalyzeExcelSimple.analyzeOkS hS
  refine ⟨⟨?_, ?_⟩, ?_, ?_⟩
  · show (AnalyzeExcel.dataSample sR).length ≤ min 10 sR.max_row
    rw [rich_sample_length sR]
  · show ∀ row ∈ AnalyzeExcel.dataSample sR, row.length ≤ sR.max_column
    intro row hrow
    simp only [AnalyzeExcel.dataSample, List.mem_map] at hrow
    obtain ⟨r, -, rfl⟩ := hrow
    simp only [List.length_map, pyRange_length]
    omega
  · show (AnalyzeExcelSimple.dataSample sS).length ≤ min 20 sS.max_row
    rw [simple_sample_length sS]
    omega
  · show ∀ row ∈ AnalyzeExcelSimple.dataSample sS, row.length ≤ sS.max_column
    intro row hrow
    simp only [AnalyzeExcelSimple.dataSample, List.mem_map] at hrow
    obtain ⟨r, -, rfl⟩ := hrow
    simp only [List.length_map, pyRange_length]
    omega

/-- Witness for `C4_sample_bounds` at the concrete sheets `wSheetR`, `wSheetS`. -/
theorem C4_sample_bounds_witness :
    (wInfoR.data_sample.length ≤ min 10 wInfoR.row_count
      ∧ ∀ row ∈ wInfoR.data_sample, row.length ≤ wInfoR.col_count)
    ∧ (wInfoS.data_sample.length ≤ min 20 wInfoS.row_count
      ∧ ∀ row ∈ wInfoS.data_sample, row.length ≤ wInfoS.col_count) :=
  C4_sample_bounds wSheetR wInfoR (by rfl) wSheetS wInfoS (by rfl)

/-! ### C5 -/

/-- The empty string is not a valid coordinate. -/
theorem coordinate_from_string_empty : coordinate_from_string "" = Option.none := by
  decide

/-- What `frozenPanes` yields on a declared coordinate that parses. -/
theorem frozenPanes_some {c : String} {col : String} {row : Nat}
    (hc : coordinate_from_string c = some (col, row)) :
    frozenPanes (some c)
      = Except.ok (some (column_index_from_string col - 1), some (row - 1)) := by
  by_cases hempty : c = ""
  · subst hempty
    rw [coordinate_from_string_empty] at hc
    exact Option.noConfusion hc
  · simp only [frozenPanes, if_neg hempty, hc]

/-- **C5.**  In both variants: a sheet that declares a freeze coordinate
gets frozen_cols = column index − 1 and frozen_rows = row index − 1; a
sheet without one gets both fields unset. -/
theorem C5_frozen_panes (sR : AnalyzeExcel.Sheet) (iR : AnalyzeExcel.SheetInfo)
    (hR : AnalyzeExcel.analyzeSheetWithSample sR = Except.ok iR)
    (sS : AnalyzeExcelSimple.Sheet) (iS : AnalyzeExcelSimple.SheetInfo)
    (hS : AnalyzeExcelSimple.analyze_sheet sS = Except.ok iS) :
    ((sR.freeze_panes = Option.none →
        iR.frozen_cols = Option.none ∧ iR.frozen_rows = Option.none)
      ∧ ∀ c col row, sR.freeze_panes = some c →
          coordinate_from_string c = some (col, row) →
          iR.frozen_cols = some (column_index_from_string col - 1)
          ∧ iR.frozen_rows = some (row - 1))
    ∧ ((sS.freeze_panes = Option.none →
        iS.frozen_cols = Option.none ∧ iS.frozen_rows = Option.none)
      ∧ ∀ c col row, sS.freeze_panes = some c →
          coordinate_from_string c = some (col, row) →
          iS.frozen_cols = some (column_index_from_string col - 1)
          ∧ iS.frozen_rows = some (row - 1)) := by
  obtain ⟨fr, dv, hfr, -, rfl⟩ := AnalyzeExcel.analyzeOkR hR
  obtain ⟨fr2, hfr2, rfl⟩ := AnalyzeExcelSimple.analyzeOkS hS
  constructor
  · constructor
    · intro hnone
      rw [hnone] at hfr
      simp only [frozenPanes, Except.ok.injEq] at hfr
      subst hfr
      exact ⟨rfl, rfl⟩
    · intro c col row hc hcoord
      rw [hc, frozenPanes_some hcoord] at hfr
      cases hfr
      exact ⟨rfl, rfl⟩
  · constructor
    · intro hnone
      rw [hnone] at hfr2
      simp only [frozenPanes, Except.ok.injEq] at hfr2
      subst hfr2
      exact ⟨rfl, rfl⟩
    · intro c col row hc hcoord
      rw [hc, frozenPanes_some hcoord] at hfr2
      cases hfr2
      exact ⟨rfl, rfl⟩

/-- Witness for `C5_frozen_panes`: the sheets `wSheetR`, `wSheetS` freeze
at "B2", and indeed frozen_cols = 1 and frozen_rows = 1 in both reports. -/
theorem C5_frozen_panes_witness :
    (((wSheetR.freeze_panes = Option.none →
        wInfoR.frozen_cols = Option.none ∧ wInfoR.frozen_rows = Option.none)
      ∧ ∀ c col row, wSheetR.freeze_panes = some c →
          coordinate_from_string c = some (col, row) →
          wInfoR.frozen_cols = some (column_index_from_string col - 1)
          ∧ wInfoR.frozen_rows = some (row - 1))
    ∧ ((wSheetS.freeze_panes = Option.none →
        wInfoS.frozen_cols = Option.none ∧ wInfoS.frozen_rows = Option.none)
      ∧ ∀ c col row, wSheetS.freeze_panes = some c →
          coordinate_from_string c = some (col, row) →
          wInfoS.frozen_cols = some (column_index_from_string col - 1)
          ∧ wInfoS.frozen_rows = some (row - 1)))
    ∧ wInfoR.frozen_cols = some 1 ∧ wInfoR.frozen_rows = some 1 :=
  ⟨C5_frozen_panes wSheetR wInfoR (by rfl) wSheetS wInfoS (by rfl),
   by decide⟩

/-! ### C6 and C10 -/

/-- What the column loops produce at position `j`, rich variant. -/
theorem mkColumns_getElem_R (s : AnalyzeExcel.Sheet) (j : Nat)
    (h : j < (AnalyzeExcel.mkColumns s).length) :
    (AnalyzeExcel.mkColumns s)[j]
      = { index := j + 1, letter := get_column_letter (j + 1),
          header := if pyTruthy (s.cell 1 (j + 1)).value then (s.cell 1 (j + 1)).value
                    else PyVal.str ("Column " ++ get_column_letter (j + 1)) } := by
  have hj : j < (pyRange 1 (s.max_column + 1)).length := by
    simpa [AnalyzeExcel.mkColumns] using h
  simp only [AnalyzeExcel.mkColumns, List.getElem_map, pyRange_getElem,
    Nat.add_comm 1 j]

/-- What the column loops produce at position `j`, simple variant. -/
theorem mkColumns_getElem_S (s : AnalyzeExcelSimple.Sheet) (j : Nat)
    (h : j < (AnalyzeExcelSimple.mkColumns s).length) :
    (AnalyzeExcelSimple.mkColumns s)[j]
      = { index := j + 1, letter := get_column_letter (j + 1),
          header := if pyTruthy (s.cell 1 (j + 1)) then pyStr (s.cell 1 (j + 1))
                    else "Column " ++ get_column_letter (j + 1) } := by
  have hj : j < (pyRange 1 (s.max_column + 1)).length := by
    simpa [AnalyzeExcelSimple.mkColumns] using h
  simp only [AnalyzeExcelSimple.mkColumns, List.getElem_map, pyRange_getElem,
    Nat.add_comm 1 j]

/-- A rich-variant sheet whose single row-1 header cell holds the integer
0: a non-empty (non-null) but falsy value. -/
def zeroHeaderSheetR : AnalyzeExcel.Sheet :=
  { title := "Z", dimensions := "A1:A1", freeze_panes := Option.none,
    merged_ranges := [], data_validations := some [],
    conditional_formatting := false, max_row := 1, max_column := 1,
    cell := fun _ _ =>
      { value := PyVal.int 0,
        fill := { patternType := some "none", fgColor := Option.none },
        font := Option.none } }

/-- The simple-variant sheet with the same zero header. -/
def zeroHeaderSheetS : AnalyzeExcelSimple.Sheet :=
  { title := "Z", dimensions := "A1:A1", freeze_panes := Option.none,
    merged_ranges := [], data_validations := some [],
    conditional_formatting := false, max_row := 1, max_column := 1,
    cell := fun _ _ => PyVal.int 0 }

/-- **C6, counterexample.**  The row-1 cell of column A holds the integer
0 — a non-empty value — yet both variants emit the fallback header
"Column A" instead of the cell's value, because the code tests Python
truthiness, not nullity. -/
theorem C6_counterexample :
    Except.map (fun i => i.columns.map (fun c => c.header))
        (AnalyzeExcel.analyzeSheetWithSample zeroHeaderSheetR)
      = Except.ok [PyVal.str "Column A"]
    ∧ PyVal.str "Column A" ≠ PyVal.int 0
    ∧ Except.map (fun i => i.columns.map (fun c => c.header))
        (AnalyzeExcelSimple.analyze_sheet zeroHeaderSheetS)
      = Except.ok ["Column A"]
    ∧ ("Column A" : String) ≠ pyStr (PyVal.int 0) := by
  exact ⟨rfl, by decide, rfl, by decide⟩

/-- Both variants' header rule, as one reusable lemma: truthy row-1 value
(raw in the rich variant, `str`-rendered in the simple one), fallback
otherwise. -/
theorem headers_rule (sR : AnalyzeExcel.Sheet) (iR : AnalyzeExcel.SheetInfo)
    (hR : AnalyzeExcel.analyzeSheetWithSample sR = Except.ok iR)
    (sS : AnalyzeExcelSimple.Sheet) (iS : AnalyzeExcelSimple.SheetInfo)
    (hS : AnalyzeExcelSimple.analyze_sheet sS = Except.ok iS)
    (j : Nat) (hjR : j < iR.columns.length) (hjS : j < iS.columns.length) :
    (iR.columns.get ⟨j, hjR⟩).header
      = (if pyTruthy (sR.cell 1 (j + 1)).value then (sR.cell 1 (j + 1)).value
         else PyVal.str ("Column " ++ get_column_letter (j + 1)))
    ∧ (iS.columns.get ⟨j, hjS⟩).header
      = (if pyTruthy (sS.cell 1 (j + 1)) then pyStr (sS.cell 1 (j + 1))
         else "Column " ++ get_column_letter (j + 1)) := by
  obtain ⟨fr, dv, -, -, rfl⟩ := AnalyzeExcel.analyzeOkR hR
  obtain ⟨fr2, -, rfl⟩ := AnalyzeExcelSimple.analyzeOkS hS
  constructor
  · rw [List.get_eq_getElem]
    rw [mkColumns_getElem_R sR j hjR]
  · rw [List.get_eq_getElem]
    rw [mkColumns_getElem_S sS j hjS]

/-- **C6 (amended).**  The header of column `j+1` is the row-1 cell's value
(rich: the raw value; simple: its string rendering) when that value is
truthy, and the fallback "Column letter" when the value is null or
otherwise falsy. -/
theorem C6_headers (sR : AnalyzeExcel.Sheet) (iR : AnalyzeExcel.SheetInfo)
    (hR : AnalyzeExcel.analyzeSheetWithSample sR = Except.ok iR)
    (sS : AnalyzeExcelSimple.Sheet) (iS : AnalyzeExcelSimple.SheetInfo)
    (hS : AnalyzeExcelSimple.analyze_sheet sS = Except.ok iS)
    (j : Nat) (hjR : j < iR.columns.length) (hjS : j < iS.columns.length) :
    (iR.columns.get ⟨j, hjR⟩).header
      = (if pyTruthy (sR.cell 1 (j + 1)).value then (sR.cell 1 (j + 1)).value
         else PyVal.str ("Column " ++ get_column_letter (j + 1)))
    ∧ (iS.columns.get ⟨j, hjS⟩).header
      = (if pyTruthy (sS.cell 1 (j + 1)) then pyStr (sS.cell 1 (j + 1))
         else "Column " ++ get_column_letter (j + 1)) :=
  headers_rule sR iR hR sS iS hS j hjR hjS

/-- Witness for `C6_headers` at `wSheetR`, `wSheetS` (truthy header 5). -/
theorem C6_headers_witness :
    (wInfoR.columns.get ⟨0, by decide⟩).header
      = (if pyTruthy (wSheetR.cell 1 (0 + 1)).value then (wSheetR.cell 1 (0 + 1)).value
         else PyVal.str ("Column " ++ get_column_letter (0 + 1)))
    ∧ (wInfoS.columns.get ⟨0, by decide⟩).header
      = (if pyTruthy (wSheetS.cell 1 (0 + 1)) then pyStr (wSheetS.cell 1 (0 + 1))
         else "Column " ++ get_column_letter (0 + 1)) :=
  C6_headers wSheetR wInfoR (by rfl) wSheetS wInfoS (by rfl) 0 (by decide) (by decide)

/-- **C10.**  A falsy non-null row-1 value (0, False, "") triggers the
fallback header in both variants: the fallback is driven by falsiness,
not only by the cell being empty. -/
theorem C10_falsy_headers (sR : AnalyzeExcel.Sheet) (iR : AnalyzeExcel.SheetInfo)
    (hR : AnalyzeExcel.analyzeSheetWithSample sR = Except.ok iR)
    (sS : AnalyzeExcelSimple.Sheet) (iS : AnalyzeExcelSimple.SheetInfo)
    (hS : AnalyzeExcelSimple.analyze_sheet sS = Except.ok iS)
    (j : Nat) (hjR : j < iR.columns.length) (hjS : j < iS.columns.length)
    (hvR : (sR.cell 1 (j + 1)).value ≠ PyVal.none)
    (htR : pyTruthy (sR.cell 1 (j + 1)).value = false)
    (hvS : sS.cell 1 (j + 1) ≠ PyVal.none)
    (htS : pyTruthy (sS.cell 1 (j + 1)) = false) :
    (iR.columns.get ⟨j, hjR⟩).header
      = PyVal.str ("Column " ++ get_column_letter (j + 1))
    ∧ (iS.columns.get ⟨j, hjS⟩).header
      = "Column " ++ get_column_letter (j + 1) := by
  obtain ⟨hhR, hhS⟩ := headers_rule sR iR hR sS iS hS j hjR hjS
  rw [hhR, hhS, if_neg (by simp [htR]), if_neg (by simp [htS])]
  exact ⟨rfl, rfl⟩

/-- The report entry the rich variant produces for `zeroHeaderSheetR`. -/
def zInfoR : AnalyzeExcel.SheetInfo :=
  { name := "Z", dimensions := "A1:A1",
    frozen_rows := Option.none, frozen_cols := Option.none,
    columns := [{ index := 1, letter := "A", header := PyVal.str "Column A" }],
    merged_cells := [], data_validation := [],
    conditional_formatting := false, row_count := 1, col_count := 1,
    data_sample := [[{ value := some "0", format := Option.none }]] }

/-- The report entry the simple variant produces for `zeroHeaderSheetS`. -/
def zInfoS : AnalyzeExcelSimple.SheetInfo :=
  { name := "Z", dimensions := "A1:A1",
    frozen_rows := Option.none, frozen_cols := Option.none,
    columns := [{ index := 1, letter := "A", header := "Column A" }],
    merged_cells := [], data_validation := [],
    conditional_formatting := false, row_count := 1, col_count := 1,
    data_sample := [[("A", some "0")]] }

/-- Witness for `C10_falsy_headers` at the zero-header sheets. -/
theorem C10_falsy_headers_witness :
    (zInfoR.columns.get ⟨0, by decide⟩).header
      = PyVal.str ("Column " ++ get_column_letter (0 + 1))
    ∧ (zInfoS.columns.get ⟨0, by decide⟩).header
      = "Column " ++ get_column_letter (0 + 1) :=
  C10_falsy_headers zeroHeaderSheetR zInfoR (by rfl) zeroHeaderSheetS zInfoS (by rfl)
    0 (by decide) (by decide) (by decide) (by decide) (by decide) (by decide)

/-! ### C7 -/

/-- The rich sample at row offset `i`, column offset `j` is exactly
`mkCellOut` of cell `(i+1, j+1)`. -/
theorem dataSample_getElem_R (s : AnalyzeExcel.Sheet) (i j : Nat)
    (hi : i < (AnalyzeExcel.dataSample s).length)
    (hj : j < ((AnalyzeExcel.dataSample s)[i]).length) :
    ((AnalyzeExcel.dataSample s)[i])[j]
      = AnalyzeExcel.mkCellOut (s.cell (i + 1) (j + 1)) := by
  have hi' : i < (pyRange 1 (min 11 (s.max_row + 1))).length := by
    simpa [AnalyzeExcel.dataSample] using hi
  have hj' : j < (pyRange 1 (s.max_column + 1)).length := by
    simpa [AnalyzeExcel.dataSample] using hj
  simp only [AnalyzeExcel.dataSample, List.getElem_map, pyRange_getElem,
    Nat.add_comm 1]

/-- The simple sample at row offset `i`, column offset `j` is the pair of
the column letter and the rendered value of cell `(i+1, j+1)`. -/
theorem dataSample_getElem_S (s : AnalyzeExcelSimple.Sheet) (i j : Nat)
    (hi : i < (AnalyzeExcelSimple.dataSample s).length)
    (hj : j < ((AnalyzeExcelSimple.dataSample s)[i]).length) :
    ((AnalyzeExcelSimple.dataSample s)[i])[j]
      = (get_column_letter (j + 1),
         match s.cell (i + 1) (j + 1) with
         | PyVal.none => Option.none
         | v => some (pyStr v)) := by
  have hi' : i < (pyRange 1 (min 20 (s.max_row + 1))).length := by
    simpa [AnalyzeExcelSimple.dataSample] using hi
  have hj' : j < (pyRange 1 (s.max_column + 1)).length := by
    simpa [AnalyzeExcelSimple.dataSample] using hj
  simp only [AnalyzeExcelSimple.dataSample, List.getElem_map, pyRange_getElem,
    Nat.add_comm 1]

/-- The value field of a sampled rich cell, spelt as a match on the raw
value. -/
theorem mkCellOut_value (c : AnalyzeExcel.Cell) :
    (AnalyzeExcel.mkCellOut c).value
      = (match c.value with
         | PyVal.none => Option.none
         | v => some (pyStr v)) := by
  obtain ⟨v, fill, font⟩ := c
  cases v <;> rfl

/-- C7: every sampled cell's reported value is the raw value rendered by
`str`, and absent exactly when the raw value is null — in both variants. -/
theorem C7_sample_values (sR : AnalyzeExcel.Sheet) (iR : AnalyzeExcel.SheetInfo)
    (hR : AnalyzeExcel.analyzeSheetWithSample sR = Except.ok iR)
    (sS : AnalyzeExcelSimple.Sheet) (iS : AnalyzeExcelSimple.SheetInfo)
    (hS : AnalyzeExcelSimple.analyze_sheet sS = Except.ok iS)
    (i j : Nat) (hiR : i < iR.data_sample.length)
    (hjR : j < (iR.data_sample[i]).length)
    (k l : Nat) (hkS : k < iS.data_sample.length)
    (hlS : l < (iS.data_sample[k]).length) :
    ((iR.data_sample[i])[j]).value
      = (match (sR.cell (i + 1) (j + 1)).value with
         | PyVal.none => Option.none
         | v => some (pyStr v))
    ∧ ((iS.data_sample[k])[l]).2
      = (match sS.cell (k + 1) (l + 1) with
         | PyVal.none => Option.none
         | v => some (pyStr v)) := by
  obtain ⟨fr, dv, -, -, rfl⟩ := AnalyzeExcel.analyzeOkR hR
  obtain ⟨fr2, -, rfl⟩ := AnalyzeExcelSimple.analyzeOkS hS
  constructor
  · rw [dataSample_getElem_R sR i j hiR hjR, mkCellOut_value]
  · rw [dataSample_getElem_S sS k l hkS hlS]

/-- Witness for `C7_sample_values` at `wSheetR`, `wSheetS`: the single
sampled cell holds 5 and is reported as the string "5". -/
theorem C7_sample_values_witness :
    ((wInfoR.data_sample[0]).get ⟨0, by decide⟩).value
      = (match (wSheetR.cell (0 + 1) (0 + 1)).value with
         | PyVal.none => Option.none
         | v => some (pyStr v))
    ∧ ((wInfoS.data_sample[0]).get ⟨0, by decide⟩).2
      = (match wSheetS.cell (0 + 1) (0 + 1) with
         | PyVal.none => Option.none
         | v => some (pyStr v)) :=
  C7_sample_values wSheetR wInfoR (by rfl) wSheetS wInfoS (by rfl)
    0 0 (by decide) (by decide) 0 0 (by decide) (by decide)

/-! ### C2 -/

/-- A fully default openpyxl cell as loaded from an unstyled workbook
cell: value None, default fill (patternType attribute is None, fgColor
with a None type), default font (bold None, italic None, size 11.0,
color None). -/
def defaultCell : AnalyzeExcel.Cell :=
  { value := PyVal.none,
    fill := { patternType := Option.none,
              fgColor := some { ctype := Option.none, rgb := Option.none } },
    font := some { bold := Option.none, italic := Option.none,
                   size := some 11, color := Option.none } }

/-- A 1×1 rich-variant sheet whose only cell is `defaultCell`. -/
def defaultCellSheetR : AnalyzeExcel.Sheet :=
  { title := "D", dimensions := "A1:A1", freeze_panes := Option.none,
    merged_ranges := [], data_validations := some [],
    conditional_formatting := false, max_row := 1, max_column := 1,
    cell := fun _ _ => defaultCell }

/-- C2 (code bug): a cell with no non-default formatting still gets a
formatting descriptor.  The cell has the default fill — whose
`patternType` attribute is None, which is unequal to the string "none"
the code compares against — and the default font of size 11, which is
truthy; so the code emits a descriptor holding a null fill key and the
default font, where the claim (and the code's own comment, which says
formats are added only if the cell has formatting) requires no descriptor
at all. -/
theorem C2_default_cell_formatting :
    AnalyzeExcel.mkCellFormat defaultCell ≠ Option.none
    ∧ AnalyzeExcel.dataSample defaultCellSheetR
      = [[{ value := Option.none,
            format := some { fill := some Option.none,
                             fill_color := Option.none,
                             font := some { bold := Option.none,
                                            italic := Option.none,
                                            size := some 11,
                                            color := Option.none } } }]] := by
  exact ⟨by decide, rfl⟩

/-! ### C1 -/

/-- The rich variant's validation loop raises `TypeError` whenever any
item of the list fails to unpack as a pair. -/
theorem dvRules_malformed_R {l : List AnalyzeExcel.DVItem}
    (h : AnalyzeExcel.DVItem.malformed ∈ l) :
    AnalyzeExcel.dvRules l = Except.error "TypeError" := by
  induction l with
  | nil => cases h
  | cons hd tl ih =>
    cases hd with
    | malformed => rfl
    | pair r dv =>
      rcases List.mem_cons.mp h with h1 | h2
      · exact AnalyzeExcel.DVItem.noConfusion h1
      · simp only [AnalyzeExcel.dvRules, ih h2]

/-- A rich-variant sheet whose validation metadata holds one malformed
item (for instance an actual openpyxl DataValidation object, which does
not unpack into a pair). -/
def badDVSheetR : AnalyzeExcel.Sheet :=
  { title := "B", dimensions := "A1:A1", freeze_panes := Option.none,
    merged_ranges := [],
    data_validations := some [AnalyzeExcel.DVItem.malformed],
    conditional_formatting := false, max_row := 1, max_column := 1,
    cell := fun _ _ => defaultCell }

/-- C1 counterexample: on a workbook whose single sheet carries malformed
validation metadata, the rich variant's whole inspection fails with the
uncaught `TypeError` instead of succeeding with an empty list. -/
theorem C1_counterexample :
    AnalyzeExcel.analyze_excel (fun _ => Except.ok [("B", badDVSheetR)]) "wb.xlsx"
      = Except.error "TypeError" := by
  rfl

/-- C1 (amended): only the simple variant tolerates absent or malformed
validation metadata — its `analyze_sheet` still succeeds (given the rest
of the sheet parses) and reports an empty `data_validation` list when the
metadata is absent — while the rich variant fails the whole inspection
whenever the metadata is absent or any validation item is malformed. -/
theorem C1_validation_tolerance (sS : AnalyzeExcelSimple.Sheet)
    (hfr : (frozenPanes sS.freeze_panes).isOk = true)
    (sR : AnalyzeExcel.Sheet)
    (hbad : sR.data_validations = Option.none
      ∨ ∃ l, sR.data_validations = some l ∧ AnalyzeExcel.DVItem.malformed ∈ l) :
    ((AnalyzeExcelSimple.analyze_sheet sS).isOk = true
      ∧ (sS.data_validations = Option.none →
          ∀ i, AnalyzeExcelSimple.analyze_sheet sS = Except.ok i →
            i.data_validation = []))
    ∧ (AnalyzeExcel.analyze_sheet sR).isOk = false := by
  refine ⟨⟨?_, ?_⟩, ?_⟩
  · cases hfr2 : frozenPanes sS.freeze_panes with
    | error e =>
      rw [hfr2] at hfr
      simp [Except.isOk, Except.toBool] at hfr
    | ok fr =>
      simp [AnalyzeExcelSimple.analyze_sheet, hfr2, Except.isOk, Except.toBool]
  · intro hnone i hok
    obtain ⟨fr, -, rfl⟩ := AnalyzeExcelSimple.analyzeOkS hok
    show AnalyzeExcelSimple.dvRules sS.data_validations = []
    rw [hnone]
    rfl
  · have hdv : ∃ e, AnalyzeExcel.dataValidationList sR.data_validations
        = Except.error e := by
      rcases hbad with hnone | ⟨l, hl, hm⟩
      · exact ⟨"AttributeError", by rw [hnone]; rfl⟩
      · exact ⟨"TypeError", by
          rw [hl]
          exact dvRules_malformed_R hm⟩
    obtain ⟨e, he⟩ := hdv
    cases hfr3 : frozenPanes sR.freeze_panes with
    | error e2 =>
      simp [AnalyzeExcel.analyze_sheet, hfr3, Except.isOk, Except.toBool]
    | ok fr3 =>
      simp [AnalyzeExcel.analyze_sheet, hfr3, he, Except.isOk, Except.toBool]

/-- A simple-variant sheet with absent validation metadata. -/
def noDVSheetS : AnalyzeExcelSimple.Sheet :=
  { title := "N", dimensions := "A1:A1", freeze_panes := Option.none,
    merged_ranges := [], data_validations := Option.none,
    conditional_formatting := false, max_row := 1, max_column := 1,
    cell := fun _ _ => PyVal.none }

/-- Witness for `C1_validation_tolerance`: absent metadata on both sides. -/
theorem C1_validation_tolerance_witness :
    ((AnalyzeExcelSimple.analyze_sheet noDVSheetS).isOk = true
      ∧ (noDVSheetS.data_validations = Option.none →
          ∀ i, AnalyzeExcelSimple.analyze_sheet noDVSheetS = Except.ok i →
            i.data_validation = []))
    ∧ (AnalyzeExcel.analyze_sheet badDVSheetR).isOk = false :=
  C1_validation_tolerance noDVSheetS (by decide) badDVSheetR
    (Or.inr ⟨[AnalyzeExcel.DVItem.malformed], rfl, List.mem_singleton.mpr rfl⟩)

/-! ### C8 -/

/-- Assigning a key that is not yet in the dictionary appends it. -/
theorem dictInsert_fresh {α : Type} (k : String) (v : α) (l : List (String × α))
    (h : ∀ p ∈ l, p.1 ≠ k) : dictInsert k v l = l ++ [(k, v)] := by
  induction l with
  | nil => rfl
  | cons hd tl ih =>
    have hhd : hd.1 ≠ k := h hd (List.mem_cons_self hd tl)
    obtain ⟨k', v'⟩ := hd
    simp only [dictInsert]
    rw [if_neg (by simpa using hhd), ih (fun p hp => h p (List.mem_cons_of_mem _ hp))]
    simp

/-- The rich per-sheet loop, run on a duplicate-free list of names whose
keys are disjoint from the accumulator, produces the accumulator's keys
followed by the names, in order. -/
theorem analyzeSheetsGo_keys_R (wb : AnalyzeExcel.Workbook) (names : List String) :
    ∀ (acc d : List (String × AnalyzeExcel.SheetInfo)),
      names.Nodup → (∀ n ∈ names, ∀ p ∈ acc, p.1 ≠ n) →
      AnalyzeExcel.analyzeSheetsGo wb names acc = Except.ok d →
      d.map Prod.fst = acc.map Prod.fst ++ names := by
  induction names with
  | nil =>
    intro acc d _ _ h
    simp only [AnalyzeExcel.analyzeSheetsGo, Except.ok.injEq] at h
    simp [h]
  | cons n rest ih =>
    intro acc d hnd hdisj h
    cases hlk : AnalyzeExcel.wbLookup wb n with
    | none =>
      simp only [AnalyzeExcel.analyzeSheetsGo, hlk] at h
      exact Except.noConfusion h
    | some s =>
      cases han : AnalyzeExcel.analyzeSheetWithSample s with
      | error e =>
        simp only [AnalyzeExcel.analyzeSheetsGo, hlk, han] at h
        exact Except.noConfusion h
      | ok i =>
        simp only [AnalyzeExcel.analyzeSheetsGo, hlk, han] at h
        have hfresh : ∀ p ∈ acc, p.1 ≠ n := hdisj n (List.mem_cons_self n rest)
        have hins := dictInsert_fresh n i acc hfresh
        obtain ⟨hnotmem, hndrest⟩ := List.nodup_cons.mp hnd
        have hdisj2 : ∀ m ∈ rest, ∀ p ∈ dictInsert n i acc, p.1 ≠ m := by
          intro m hm p hp
          rw [hins] at hp
          rcases List.mem_append.mp hp with hp1 | hp2
          · exact hdisj m (List.mem_cons_of_mem _ hm) p hp1
          · have hpni : p = (n, i) := by simpa using hp2
            subst hpni
            intro hcontra
            exact hnotmem (by simpa [← hcontra] using hm)
        have hrec := ih (dictInsert n i acc) d hndrest hdisj2 h
        rw [hins] at hrec
        simpa using hrec

/-- Same statement for the simple variant's per-sheet loop. -/
theorem analyzeSheetsGo_keys_S (wb : AnalyzeExcelSimple.Workbook) (names : List String) :
    ∀ (acc d : List (String × AnalyzeExcelSimple.SheetInfo)),
      names.Nodup → (∀ n ∈ names, ∀ p ∈ acc, p.1 ≠ n) →
      AnalyzeExcelSimple.analyzeSheetsGo wb names acc = Except.ok d →
      d.map Prod.fst = acc.map Prod.fst ++ names := by
  induction names with
  | nil =>
    intro acc d _ _ h
    simp only [AnalyzeExcelSimple.analyzeSheetsGo, Except.ok.injEq] at h
    simp [h]
  | cons n rest ih =>
    intro acc d hnd hdisj h
    cases hlk : AnalyzeExcelSimple.wbLookup wb n with
    | none =>
      simp only [AnalyzeExcelSimple.analyzeSheetsGo, hlk] at h
      exact Except.noConfusion h
    | some s =>
      cases han : AnalyzeExcelSimple.analyze_sheet s with
      | error e =>
        simp only [AnalyzeExcelSimple.analyzeSheetsGo, hlk, han] at h
        exact Except.noConfusion h
      | ok i =>
        simp only [AnalyzeExcelSimple.analyzeSheetsGo, hlk, han] at h
        have hfresh : ∀ p ∈ acc, p.1 ≠ n := hdisj n (List.mem_cons_self n rest)
        have hins := dictInsert_fresh n i acc hfresh
        obtain ⟨hnotmem, hndrest⟩ := List.nodup_cons.mp hnd
        have hdisj2 : ∀ m ∈ rest, ∀ p ∈ dictInsert n i acc, p.1 ≠ m := by
          intro m hm p hp
          rw [hins] at hp
          rcases List.mem_append.mp hp with hp1 | hp2
          · exact hdisj m (List.mem_cons_of_mem _ hm) p hp1
          · have hpni : p = (n, i) := by simpa using hp2
            subst hpni
            intro hcontra
            exact hnotmem (by simpa [← hcontra] using hm)
        have hrec := ih (dictInsert n i acc) d hndrest hdisj2 h
        rw [hins] at hrec
        simpa using hrec

/-- C8: in every successful report of either variant (sheet names in a
workbook are unique), the keys of the `sheets` mapping equal the
`sheet_names` list, in the same order; the JSON layer serialises and
re-parses both structures without reordering, so this is the round-trip
property on the emitted report. -/
theorem C8_sheet_names_match
    (loadR : String → Except String AnalyzeExcel.Workbook) (fpR : String)
    (wbR : AnalyzeExcel.Workbook) (repR : AnalyzeExcel.Report)
    (hldR : loadR fpR = Except.ok wbR)
    (hndR : (wbR.map Prod.fst).Nodup)
    (hR : AnalyzeExcel.analyze_excel loadR fpR = Except.ok repR)
    (loadS : String → Except String AnalyzeExcelSimple.Workbook) (fpS : String)
    (wbS : AnalyzeExcelSimple.Workbook) (repS : AnalyzeExcelSimple.Report)
    (hldS : loadS fpS = Except.ok wbS)
    (hndS : (wbS.map Prod.fst).Nodup)
    (hS : AnalyzeExcelSimple.analyze_excel loadS fpS = Except.ok repS) :
    repR.sheets.map Prod.fst = repR.sheet_names
    ∧ repS.sheets.map Prod.fst = repS.sheet_names := by
  constructor
  · simp only [AnalyzeExcel.analyze_excel, hldR] at hR
    cases hgo : AnalyzeExcel.analyzeSheetsGo wbR (wbR.map Prod.fst) [] with
    | error e =>
      rw [hgo] at hR
      exact Except.noConfusion hR
    | ok d =>
      rw [hgo] at hR
      simp only [Except.ok.injEq] at hR
      subst hR
      have := analyzeSheetsGo_keys_R wbR (wbR.map Prod.fst) [] d hndR
        (fun n _ p hp => absurd hp (List.not_mem_nil p)) hgo
      simpa using this
  · simp only [AnalyzeExcelSimple.analyze_excel, hldS] at hS
    cases hgo : AnalyzeExcelSimple.analyzeSheetsGo wbS (wbS.map Prod.fst) [] with
    | error e =>
      rw [hgo] at hS
      exact Except.noConfusion hS
    | ok d =>
      rw [hgo] at hS
      simp only [Except.ok.injEq] at hS
      subst hS
      have := analyzeSheetsGo_keys_S wbS (wbS.map Prod.fst) [] d hndS
        (fun n _ p hp => absurd hp (List.not_mem_nil p)) hgo
      simpa using this

/-- The rich report on the one-sheet workbook holding `wSheetR`. -/
def wRepR : AnalyzeExcel.Report :=
  { filename := "wb.xlsx", sheet_names := ["W"], sheets := [("W", wInfoR)] }

/-- The simple report on the one-sheet workbook holding `wSheetS`. -/
def wRepS : AnalyzeExcelSimple.Report :=
  { filename := "wb.xlsx", sheet_names := ["W"], sheets := [("W", wInfoS)] }

/-- Witness for `C8_sheet_names_match` on one-sheet workbooks. -/
theorem C8_sheet_names_match_witness :
    wRepR.sheets.map Prod.fst = wRepR.sheet_names
    ∧ wRepS.sheets.map Prod.fst = wRepS.sheet_names :=
  C8_sheet_names_match (fun _ => Except.ok [("W", wSheetR)]) "wb.xlsx"
    [("W", wSheetR)] wRepR rfl (by decide) (by rfl)
    (fun _ => Except.ok [("W", wSheetS)]) "wb.xlsx"
    [("W", wSheetS)] wRepS rfl (by decide) (by rfl)

/-! ### C9 -/

/-- C9: whenever the inspection raises (any exception from loading or
analysing), both variants print exactly "Error analyzing Excel file: "
followed by the message to standard error, exit with status 1, and print
no report — not even a partial one — to standard output. -/
theorem C9_error_exit (loadR : String → Except String AnalyzeExcel.Workbook)
    (loadS : String → Except String AnalyzeExcelSimple.Workbook)
    (prog fpR fpS e eS : String)
    (hR : AnalyzeExcel.analyze_excel loadR fpR = Except.error e)
    (hS : AnalyzeExcelSimple.analyze_excel loadS fpS = Except.error eS) :
    ((AnalyzeExcel.main loadR [prog, fpR]).report_printed = Option.none
      ∧ (AnalyzeExcel.main loadR [prog, fpR]).error_printed
          = some ("Error analyzing Excel file: " ++ e)
      ∧ (AnalyzeExcel.main loadR [prog, fpR]).exit_code = 1)
    ∧ ((AnalyzeExcelSimple.main loadS [prog, fpS]).report_printed = Option.none
      ∧ (AnalyzeExcelSimple.main loadS [prog, fpS]).error_printed
          = some ("Error analyzing Excel file: " ++ eS)
      ∧ (AnalyzeExcelSimple.main loadS [prog, fpS]).exit_code = 1) := by
  constructor
  · simp [AnalyzeExcel.main, hR]
  · simp [AnalyzeExcelSimple.main, hS]

/-- A loader that raises, as for a missing or corrupt workbook file. -/
def failLoadR : String → Except String AnalyzeExcel.Workbook :=
  fun _ => Except.error "boom"

/-- A loader that raises, simple variant. -/
def failLoadS : String → Except String AnalyzeExcelSimple.Workbook :=
  fun _ => Except.error "boom"

/-- Witness for `C9_error_exit` with a failing loader. -/
theorem C9_error_exit_witness :
    ((AnalyzeExcel.main failLoadR ["prog", "f.xlsx"]).report_printed = Option.none
      ∧ (AnalyzeExcel.main failLoadR ["prog", "f.xlsx"]).error_printed
          = some ("Error analyzing Excel file: " ++ "boom")
      ∧ (AnalyzeExcel.main failLoadR ["prog", "f.xlsx"]).exit_code = 1)
    ∧ ((AnalyzeExcelSimple.main failLoadS ["prog", "f.xlsx"]).report_printed = Option.none
      ∧ (AnalyzeExcelSimple.main failLoadS ["prog", "f.xlsx"]).error_printed
          = some ("Error analyzing Excel file: " ++ "boom")
      ∧ (AnalyzeExcelSimple.main failLoadS ["prog", "f.xlsx"]).exit_code = 1) :=
  C9_error_exit failLoadR failLoadS "prog" "f.xlsx" "f.xlsx" "boom" "boom" rfl rfl
